import Mathlib

/-!
Shallow embedding of the ecoNET-300 Home Assistant integration's core API
module (`custom_components/econet300/api.py`) and the parts of its data
model the specification talks about: the HTTP client's bounded-retry GET,
the key-value cache, and the `Econet300Api` facade operations
(`init`, `set_param`, `get_param_limits`, `fetch_reg_params_data`,
`fetch_sys_params`, `fetch_reg_params`).

JSON values returned by the device are modelled by the inductive `JVal`.
Stateful methods are modelled as pure functions that take the current
cache (and the device's response to the HTTP call they would issue) and
return the result together with the new cache and a small trace of the
observable effects (whether an HTTP call was issued, how many bulk
fetches happened). Python exceptions (`DataError`) are modelled with
`Except`; the `AuthError` raised inside the client's `_get` is a
constructor of the `GetResult` type.
-/

namespace Econet

/-- JSON values, as parsed from the device's responses. Objects are
association lists of fields. -/
inductive JVal where
  | null
  | str (s : String)
  | num (n : Int)
  | obj (fields : List (String × JVal))

/-- Field lookup in a JSON object: the value of the first field named
`key`, or `none` when the value is not an object or has no such field.
(Python raises `TypeError` on `key in v` for a non-dict `v`; no claim
exercises that corner and it is modelled as absence.) -/
def JVal.lookup (v : JVal) (key : String) : Option JVal :=
  match v with
  | .obj fields => go fields
  | _ => none
where
  go : List (String × JVal) → Option JVal
    | [] => none
    | (k, x) :: rest => if k = key then some x else go rest

/-- Python `data["result"] != "OK"`: a JSON value equals the string
literal `"OK"` only when it is that string. -/
def JVal.isOKLiteral : JVal → Bool
  | .str s => s = "OK"
  | _ => false

/-- Modelled from the spec: `mem_cache.py` is not under `src/`; §4.2 gives
the contract `exists(key) -> bool`, `get(key) -> value`,
`set(key, value) -> void`, with entries persisting (no eviction, no TTL).
The cache is an association list, newest entry first. -/
def Cache := List (String × JVal)

/-- Modelled from the spec: `get(key)` returns the last value stored for
`key` (`none` when the key was never stored). -/
def cacheGet : Cache → String → Option JVal
  | [], _ => none
  | (k, v) :: rest, key => if k = key then some v else cacheGet rest key

/-- Modelled from the spec: `set(key, value)` stores `value` under `key`,
shadowing any earlier entry. -/
def cacheSet (c : Cache) (key : String) (v : JVal) : Cache :=
  (key, v) :: c

/-- Modelled from the spec: `exists(key)` reports whether `key` has a
stored value. -/
def cacheExists (c : Cache) (key : String) : Bool :=
  (cacheGet c key).isSome

/-- Modelled from the spec: `const.py` is not under `src/`. The mapping
table translating entity keys into device parameter names
(`EDITABLE_PARAMS_MAPPING_TABLE`); its concrete contents do not matter
to any claim, so it is an explicit association-list argument. -/
def MappingTable := List (String × String)

/-- `map_param` (api.py:32): `None` when the name is not in the mapping
table, else the mapped device parameter name. -/
def map_param (table : MappingTable) (param_name : String) : Option String :=
  match table with
  | [] => none
  | (k, v) :: rest => if k = param_name then some v else map_param rest param_name

/-! ## The HTTP client's `_get` (api.py:109-150)

The network is modelled as a function from the (1-based) attempt number
to what that HTTP request does: time out, or complete with a status code
and a parsed JSON body. -/

/-- Outcome of one HTTP GET attempt. -/
inductive HttpOutcome where
  | timeout
  | status (code : Nat) (body : JVal)

/-- What `_get` does: return parsed JSON, return `None`, or raise
`AuthError`. -/
inductive GetResult where
  | ok (data : JVal)
  | noData
  | authError

/-- Observable trace of one `_get` call: its result, how many HTTP
attempts were issued, and how many 1-second sleeps were performed. -/
structure GetTrace where
  result : GetResult
  attempts : Nat
  sleeps : Nat

/-- The body of `_get`'s `while attempt <= max_attempts` loop
(api.py:113-146). `attempt` is the Python loop counter, `fuel` the number
of iterations the guard still allows, `sleeps` the sleeps so far.
On HTTP 401 it raises `AuthError`; on any other non-200 status it returns
`None`; on 200 it returns the body; on timeout it sleeps 1 second and
retries. -/
def getLoop (net : Nat → HttpOutcome) (attempt fuel sleeps : Nat) : GetTrace :=
  match fuel with
  | 0 => ⟨.noData, attempt - 1, sleeps⟩
  | f + 1 =>
    match net attempt with
    | .timeout => getLoop net (attempt + 1) f (sleeps + 1)
    | .status code body =>
      if code = 401 then ⟨.authError, attempt, sleeps⟩
      else if code = 200 then ⟨.ok body, attempt, sleeps⟩
      else ⟨.noData, attempt, sleeps⟩

/-- `EconetClient._get` (api.py:109): `attempt = 1`, `max_attempts = 5`. -/
def econetGet (net : Nat → HttpOutcome) : GetTrace :=
  getLoop net 1 5 0

/-! ## `EconetClient.__init__` host normalization (api.py:67-84) -/

/-- Python's substring test `pat in host`: `pat` occurs contiguously in
`host`. Scans every suffix of `host` for `pat` as a prefix. -/
def containsSub (host pat : String) : Bool :=
  go pat.toList host.toList
where
  go (p : List Char) : List Char → Bool
    | [] => p.isEmpty
    | c :: rest => p.isPrefixOf (c :: rest) || go p rest

/-- `proto = ["http://", "https://"]` (api.py:72). -/
def proto : List String := ["http://", "https://"]

/-- Host normalization in `EconetClient.__init__` (api.py:74-78):
`not_contains = all(p not in host for p in proto)` is a substring check
(Python `in` on strings), and when neither protocol string occurs
anywhere in `host`, `"http://"` is prepended. -/
def hostNormalize (host : String) : String :=
  let not_contains := proto.all (fun p => !(containsSub host p))
  if not_contains then "http://" ++ host else host

/-- The spec-side notion of "the caller supplied a scheme": the host
starts with `"http://"` or `"https://"`. Written from the spec's words,
to be compared with `hostNormalize`, which the source bases on substring
containment instead. -/
def schemePrefixed (host : String) : Bool :=
  "http://".toList.isPrefixOf host.toList || "https://".toList.isPrefixOf host.toList

/-! ## Spec-modelled registry constants

Modelled from the spec: `const.py` is not under `src/`; the spec (§4.3,
§6, §8) names four GET registries and the envelope keys unwrapped from
them. Only their identities (which are fixed strings) matter to the
claims, never their spelling. -/

/-- Modelled from the spec: URI of the system-parameters registry. -/
def API_SYS_PARAMS_URI : String := "sysParams"

/-- Modelled from the spec: envelope key for the device uid. -/
def API_SYS_PARAMS_PARAM_UID : String := "uid"

/-- Modelled from the spec: envelope key for the controller model id. -/
def API_SYS_PARAMS_PARAM_MODEL_ID : String := "controllerID"

/-- Modelled from the spec: envelope key for the software revision. -/
def API_SYS_PARAMS_PARAM_SW_REV : String := "softVer"

/-- Modelled from the spec: envelope key for the hardware version. -/
def API_SYS_PARAMS_PARAM_HW_VER : String := "routerType"

/-- Modelled from the spec: URI of the register-parameters registry. -/
def API_REG_PARAMS_URI : String := "regParams"

/-- Modelled from the spec: envelope key unwrapped by `fetch_reg_params`. -/
def API_REG_PARAMS_PARAM_DATA : String := "curr"

/-- Modelled from the spec: URI of the register-parameter-data registry. -/
def API_REG_PARAMS_DATA_URI : String := "regParamsData"

/-- Modelled from the spec: envelope key unwrapped by
`fetch_reg_params_data`. -/
def API_REG_PARAMS_DATA_PARAM_DATA : String := "data"

/-- Modelled from the spec: URI of the editable-parameter-limits
registry. -/
def API_EDITABLE_PARAMS_LIMITS_URI : String := "rmCurrentDataParamsEdits"

/-- Modelled from the spec: envelope key (and cache key) of the
editable-limits table. -/
def API_EDITABLE_PARAMS_LIMITS_DATA : String := "limitsData"

/-! ## The `Econet300Api` facade (api.py:153-356)

Each facade method awaits at most one HTTP round trip through the
client; that round trip's outcome (the parsed JSON body, or `none` when
`_get` returned `None`) is passed in as the `resp` argument. -/

/-- `Limits` (api.py:40-46): min/max bounds as read from the JSON limits
table. -/
structure Limits where
  min : JVal
  max : JVal

/-- Device identity fields of `Econet300Api` (api.py:156-163). -/
structure ApiState where
  uid : JVal
  model_id : JVal
  sw_revision : JVal
  hw_version : JVal

/-- The defaults assigned in `Econet300Api.__init__` (api.py:160-163). -/
def defaultApiState : ApiState :=
  ⟨.str "default-uid", .str "default-model-id",
   .str "default-sw-revision", .str "default-hw-version"⟩

/-- `Econet300Api.init` (api.py:198-236): on a `None` response, return
leaving every field as it was; otherwise overwrite exactly the fields
whose key is present in the response. -/
def init (st : ApiState) (sys_params : Option JVal) : ApiState :=
  match sys_params with
  | none => st
  | some sp =>
    let st := match sp.lookup API_SYS_PARAMS_PARAM_UID with
      | none => st
      | some v => { st with uid := v }
    let st := match sp.lookup API_SYS_PARAMS_PARAM_MODEL_ID with
      | none => st
      | some v => { st with model_id := v }
    let st := match sp.lookup API_SYS_PARAMS_PARAM_SW_REV with
      | none => st
      | some v => { st with sw_revision := v }
    match sp.lookup API_SYS_PARAMS_PARAM_HW_VER with
      | none => st
      | some v => { st with hw_version := v }

/-- Result of `Econet300Api.set_param`: the returned boolean, the cache
afterwards, and whether the HTTP write was issued. -/
structure SetParamOut where
  ok : Bool
  cache : Cache
  httpCalled : Bool

/-- `Econet300Api.set_param` (api.py:238-256). `param` is `none` for
Python `None` (which is how an unmapped key reaches this method, since
`map_param` resolves unmapped keys to `None`). `resp` is the JSON the
client's write call returned (`none` when `_get` returned `None`). -/
def set_param (cache : Cache) (param : Option String) (value : JVal)
    (resp : Option JVal) : SetParamOut :=
  match param with
  | none => ⟨false, cache, false⟩
  | some p =>
    match resp with
    | none => ⟨false, cache, true⟩
    | some data =>
      match data.lookup "result" with
      | none => ⟨false, cache, true⟩
      | some r =>
        if r.isOKLiteral then ⟨true, cacheSet cache p value, true⟩
        else ⟨false, cache, true⟩

/-- The spec-side success test for a write: the device's JSON response is
present and contains a `"result"` field equal to the literal `"OK"`. -/
def respConfirmsOK (resp : Option JVal) : Bool :=
  match resp with
  | none => false
  | some data =>
    match data.lookup "result" with
    | none => false
    | some r => r.isOKLiteral

/-- `Econet300Api._fetch_reg_key` (api.py:311-325): `DataError` when the
response is `None`; the whole body when `data_key` is `None`; `DataError`
when the key is absent; else the key's value. -/
def fetch_reg_key (reg : String) (resp : Option JVal)
    (data_key : Option String) : Except String JVal :=
  match resp with
  | none => .error ("Data fetched by API for reg: " ++ reg ++ " is None")
  | some data =>
    match data_key with
    | none => .ok data
    | some k =>
      match data.lookup k with
      | none => .error ("Data for key: " ++ k ++ " does not exist")
      | some v => .ok v

/-- `Econet300Api._fetch_reg_names` (api.py:340-355): same branches as
`_fetch_reg_key`, duplicated in the source. -/
def fetch_reg_names (reg : String) (resp : Option JVal)
    (data_key : Option String) : Except String JVal :=
  match resp with
  | none => .error ("Data fetched by API for reg: " ++ reg ++ " is None")
  | some data =>
    match data_key with
    | none => .ok data
    | some k =>
      match data.lookup k with
      | none => .error ("Data for key: " ++ k ++ " does not exist")
      | some v => .ok v

/-- `Econet300Api.fetch_reg_params_data` (api.py:288-299): unwraps the
data key from the regParamsData envelope and converts a `DataError` into
the empty dict `{}`. Total: it never propagates an exception. -/
def fetch_reg_params_data (resp : Option JVal) : JVal :=
  match fetch_reg_key API_REG_PARAMS_DATA_URI resp
      (some API_REG_PARAMS_DATA_PARAM_DATA) with
  | .error _ => .obj []
  | .ok v => v

/-- `Econet300Api.fetch_sys_params` (api.py:327-329): returns the
client's response for the sysParams registry as-is — no unwrapping, no
`try`, no raise; a missing envelope comes back as `.ok none`. -/
def api_fetch_sys_params (resp : Option JVal) : Except String (Option JVal) :=
  .ok resp

/-- `Econet300Api.fetch_reg_params` (api.py:331-338): unwraps the data
key from the regParams envelope via `_fetch_reg_names`; the `DataError`
is not caught here, so it propagates to the caller. -/
def fetch_reg_params (resp : Option JVal) : Except String JVal :=
  fetch_reg_names API_REG_PARAMS_URI resp (some API_REG_PARAMS_PARAM_DATA)

/-- Result of `Econet300Api.get_param_limits`: the returned value (or the
propagated exception), the cache afterwards, and how many bulk limits
fetches were issued. -/
structure LimitsOut where
  result : Except String (Option Limits)
  cache : Cache
  fetches : Nat

/-- `Econet300Api.get_param_limits` (api.py:258-286). When the limits
table is not cached, it is fetched (one bulk fetch; a `DataError` from
the fetch propagates, leaving the cache unchanged) and stored; then the
table is re-read from the cache; only then is `param` checked against
`None` and against the table. `curr_limits["min"]`/`["max"]` raise
`KeyError` when absent, modelled as an error result. -/
def get_param_limits (cache : Cache) (param : Option String)
    (resp : Option JVal) : LimitsOut :=
  if cacheExists cache API_EDITABLE_PARAMS_LIMITS_DATA then
    getParamLimitsRest cache 0 param
  else
    match fetch_reg_key API_EDITABLE_PARAMS_LIMITS_URI resp
        (some API_EDITABLE_PARAMS_LIMITS_DATA) with
    | .error e => ⟨.error e, cache, 1⟩
    | .ok table =>
      getParamLimitsRest (cacheSet cache API_EDITABLE_PARAMS_LIMITS_DATA table) 1 param
where
  /-- api.py:266-286: the part after the lazy fetch, reading the table
  back out of the cache. -/
  getParamLimitsRest (cache : Cache) (fetches : Nat) (param : Option String) :
      LimitsOut :=
    match cacheGet cache API_EDITABLE_PARAMS_LIMITS_DATA with
    | none => ⟨.error "TypeError: limits is None", cache, fetches⟩
    | some limits =>
      match param with
      | none => ⟨.ok none, cache, fetches⟩
      | some p =>
        match limits.lookup p with
        | none => ⟨.ok none, cache, fetches⟩
        | some curr =>
          match curr.lookup "min", curr.lookup "max" with
          | some mn, some mx => ⟨.ok (some ⟨mn, mx⟩), cache, fetches⟩
          | _, _ => ⟨.error "KeyError: min/max", cache, fetches⟩

/-! ## Concrete fixtures used by witnesses -/

/-- A network on which every attempt times out. -/
def allTimeoutNet : Nat → HttpOutcome := fun _ => .timeout

/-- A network answering HTTP 401 to every attempt. -/
def auth401Net : Nat → HttpOutcome := fun _ => .status 401 .null

/-- A concrete editable-limits table with one well-formed entry. -/
def limitsTableEx : JVal :=
  .obj [("tempCO", .obj [("min", .num 10), ("max", .num 40)])]

/-- A concrete limits-registry envelope wrapping `limitsTableEx`. -/
def limitsEnvEx : JVal :=
  .obj [(API_EDITABLE_PARAMS_LIMITS_DATA, limitsTableEx)]

/-! ## Helper lemmas -/

/-- Reading back a key that was just stored. -/
theorem cacheGet_set_self (c : Cache) (k : String) (v : JVal) :
    cacheGet (cacheSet c k v) k = some v := by
  simp [cacheGet, cacheSet]

/-- The tail of `get_param_limits` after the lazy fetch reports exactly
the number of fetches it was handed. -/
theorem getParamLimitsRest_fetches (c : Cache) (n : Nat) (param : Option String) :
    (get_param_limits.getParamLimitsRest c n param).fetches = n := by
  unfold get_param_limits.getParamLimitsRest
  repeat' split
  all_goals rfl

/-- The tail of `get_param_limits` never touches the cache. -/
theorem getParamLimitsRest_cache (c : Cache) (n : Nat) (param : Option String) :
    (get_param_limits.getParamLimitsRest c n param).cache = c := by
  unfold get_param_limits.getParamLimitsRest
  repeat' split
  all_goals rfl

/-- A key that was just stored exists. -/
theorem cacheExists_set_self (c : Cache) (k : String) (v : JVal) :
    cacheExists (cacheSet c k v) k = true := by
  simp [cacheExists, cacheGet_set_self]

/-- On a cold cache with a good envelope, `get_param_limits` runs the
fetch once and continues with the freshly stored table. -/
theorem getParamLimits_cold_eq (cache : Cache) (env table : JVal)
    (param : Option String)
    (hcold : cacheExists cache API_EDITABLE_PARAMS_LIMITS_DATA = false)
    (henv : env.lookup API_EDITABLE_PARAMS_LIMITS_DATA = some table) :
    get_param_limits cache param (some env)
      = get_param_limits.getParamLimitsRest
          (cacheSet cache API_EDITABLE_PARAMS_LIMITS_DATA table) 1 param := by
  simp [get_param_limits, hcold, fetch_reg_key, henv]

/-- The substring scan of `containsSub` agrees with `List.IsInfix`. -/
theorem containsSub_go_iff (p : List Char) (l : List Char) :
    containsSub.go p l = true ↔ p <:+: l := by
  induction l with
  | nil => simp [containsSub.go, List.infix_nil, List.isEmpty_iff]
  | cons c rest ih =>
    simp [containsSub.go, ih, List.infix_cons_iff, List.isPrefixOf_iff_prefix]

/-- `containsSub` decides substring occurrence. -/
theorem containsSub_iff (host pat : String) :
    containsSub host pat = true ↔ pat.toList <:+: host.toList :=
  containsSub_go_iff pat.toList host.toList

/-- `containsSub` as the decision procedure for `List.IsInfix`. -/
theorem containsSub_eq_decide (host pat : String) :
    containsSub host pat = decide (pat.toList <:+: host.toList) := by
  by_cases h : pat.toList <:+: host.toList
  · rw [(containsSub_iff host pat).mpr h, decide_eq_true h]
  · rw [decide_eq_false h]
    cases hc : containsSub host pat
    · rfl
    · exact absurd ((containsSub_iff host pat).mp hc) h

end Econet

namespace Econet

/-! ## Claim theorems -/

/-- C1: `set_param(key, value)` returns `false` without issuing the HTTP
write when the key is null (which is how an unmapped key reaches it via
`map_param`); with a mapped key it issues the write, returns `true`
exactly when the device's JSON response contains a `"result"` field equal
to the literal `"OK"`, and in that case (and only then) the cache
afterwards holds the written value under the key. -/
theorem setParam_spec (cache : Cache) (p : String) (value : JVal)
    (resp : Option JVal) (table : MappingTable) (k : String) :
    (set_param cache none value resp).ok = false
    ∧ (set_param cache none value resp).httpCalled = false
    ∧ (set_param cache (map_param table k) value resp).httpCalled
        = (map_param table k).isSome
    ∧ (set_param cache (some p) value resp).ok = respConfirmsOK resp
    ∧ cacheGet (set_param cache (some p) value resp).cache p
        = cond (respConfirmsOK resp) (some value) (cacheGet cache p) := by
  refine ⟨rfl, rfl, ?_, ?_, ?_⟩
  · cases map_param table k with
    | none => rfl
    | some a =>
      cases resp with
      | none => rfl
      | some data =>
        simp only [set_param, Option.isSome]
        cases data.lookup "result" with
        | none => rfl
        | some r => by_cases hr : r.isOKLiteral <;> simp [hr]
  · cases resp with
    | none => rfl
    | some data =>
      simp only [set_param, respConfirmsOK]
      cases data.lookup "result" with
      | none => rfl
      | some r => by_cases hr : r.isOKLiteral <;> simp [hr]
  · cases resp with
    | none => rfl
    | some data =>
      simp only [set_param, respConfirmsOK]
      cases hd : data.lookup "result" with
      | none => simp [hd]
      | some r =>
        by_cases hr : r.isOKLiteral <;> simp [hd, hr, cacheGet_set_self]

/-- C2: on every failing branch of `set_param` the cache is left
unchanged; the cache is written exactly when the call succeeds, and then
the only write is the confirmed key/value pair. -/
theorem setParam_cache_invariant (cache : Cache) (p : String) (value : JVal)
    (resp : Option JVal) :
    (set_param cache none value resp).cache = cache
    ∧ (set_param cache (some p) value resp).cache
        = cond (set_param cache (some p) value resp).ok
            (cacheSet cache p value) cache := by
  refine ⟨rfl, ?_⟩
  cases resp with
  | none => rfl
  | some data =>
    simp only [set_param]
    cases hd : data.lookup "result" with
    | none => simp [hd]
    | some r => by_cases hr : r.isOKLiteral <;> simp [hd, hr]

/-- C3: when every attempt times out, `_get` issues exactly 5 attempts,
sleeps 1 second after each of them, and returns `None` instead of
raising. -/
theorem get_timeout_exhaustion (net : Nat → HttpOutcome)
    (h : ∀ n, net n = .timeout) :
    econetGet net = ⟨.noData, 5, 5⟩ := by
  simp [econetGet, getLoop, h]

/-- Witness for C3 at the all-timeout network. -/
theorem get_timeout_exhaustion_witness :
    econetGet allTimeoutNet = ⟨.noData, 5, 5⟩ :=
  get_timeout_exhaustion allTimeoutNet (fun _ => rfl)

/-- C4: an HTTP 401 on the first attempt makes `_get` raise `AuthError`
immediately: one attempt, no sleeps, no retries. -/
theorem get_auth_first_attempt (net : Nat → HttpOutcome) (body : JVal)
    (h : net 1 = .status 401 body) :
    econetGet net = ⟨.authError, 1, 0⟩ := by
  simp [econetGet, getLoop, h]

/-- Witness for C4 at a network answering 401. -/
theorem get_auth_first_attempt_witness :
    econetGet auth401Net = ⟨.authError, 1, 0⟩ :=
  get_auth_first_attempt auth401Net .null rfl

/-- C8: `init` on a `None` system-parameters response leaves the state
untouched (so a fresh instance keeps all four default placeholder
strings), and on a present response each identity field becomes the
response's value when its key is present and keeps its default
placeholder otherwise — in particular a response missing the
hardware-version key leaves `hw_version` at `"default-hw-version"`. -/
theorem init_defaults_spec (st : ApiState) (sp : JVal) :
    init st none = st
    ∧ (init defaultApiState (some sp)).uid
        = (sp.lookup API_SYS_PARAMS_PARAM_UID).getD (.str "default-uid")
    ∧ (init defaultApiState (some sp)).model_id
        = (sp.lookup API_SYS_PARAMS_PARAM_MODEL_ID).getD (.str "default-model-id")
    ∧ (init defaultApiState (some sp)).sw_revision
        = (sp.lookup API_SYS_PARAMS_PARAM_SW_REV).getD (.str "default-sw-revision")
    ∧ (init defaultApiState (some sp)).hw_version
        = (sp.lookup API_SYS_PARAMS_PARAM_HW_VER).getD (.str "default-hw-version") := by
  refine ⟨rfl, ?_, ?_, ?_, ?_⟩ <;>
    (cases h1 : sp.lookup API_SYS_PARAMS_PARAM_UID <;>
     cases h2 : sp.lookup API_SYS_PARAMS_PARAM_MODEL_ID <;>
     cases h3 : sp.lookup API_SYS_PARAMS_PARAM_SW_REV <;>
     cases h4 : sp.lookup API_SYS_PARAMS_PARAM_HW_VER <;>
     simp [init, h1, h2, h3, h4, defaultApiState])

/-- C5: the first `get_param_limits` on a cold cache performs exactly
one bulk fetch and stores the limits table; it returns a min/max pair
for a key present in the table, `None` for an absent key and for a
null/unmapped key; and any later call on the resulting cache performs no
further bulk fetch. -/
theorem getParamLimits_lazy_fetch (cache : Cache) (env table curr mn mx : JVal)
    (param param' : Option String) (p q : String) (resp' : Option JVal)
    (hcold : cacheExists cache API_EDITABLE_PARAMS_LIMITS_DATA = false)
    (henv : env.lookup API_EDITABLE_PARAMS_LIMITS_DATA = some table) :
    (get_param_limits cache param (some env)).fetches = 1
    ∧ cacheGet (get_param_limits cache param (some env)).cache
        API_EDITABLE_PARAMS_LIMITS_DATA = some table
    ∧ (table.lookup p = some curr → curr.lookup "min" = some mn →
        curr.lookup "max" = some mx →
        (get_param_limits cache (some p) (some env)).result = .ok (some ⟨mn, mx⟩))
    ∧ (table.lookup q = none →
        (get_param_limits cache (some q) (some env)).result = .ok none)
    ∧ (get_param_limits cache none (some env)).result = .ok none
    ∧ (get_param_limits (get_param_limits cache param (some env)).cache
        param' resp').fetches = 0 := by
  refine ⟨?_, ?_, ?_, ?_, ?_, ?_⟩
  · rw [getParamLimits_cold_eq cache env table param hcold henv,
      getParamLimitsRest_fetches]
  · rw [getParamLimits_cold_eq cache env table param hcold henv,
      getParamLimitsRest_cache, cacheGet_set_self]
  · intro h1 h2 h3
    rw [getParamLimits_cold_eq cache env table (some p) hcold henv]
    unfold get_param_limits.getParamLimitsRest
    simp [cacheGet_set_self, h1, h2, h3]
  · intro hq
    rw [getParamLimits_cold_eq cache env table (some q) hcold henv]
    unfold get_param_limits.getParamLimitsRest
    simp [cacheGet_set_self, hq]
  · rw [getParamLimits_cold_eq cache env table none hcold henv]
    unfold get_param_limits.getParamLimitsRest
    simp [cacheGet_set_self]
  · rw [getParamLimits_cold_eq cache env table param hcold henv,
      getParamLimitsRest_cache]
    simp [get_param_limits, cacheExists_set_self, getParamLimitsRest_fetches]

/-- Witness for C5 at a one-entry table fetched into an empty cache. -/
theorem getParamLimits_lazy_fetch_witness :
    (get_param_limits ([] : Cache) (some "tempCO") (some limitsEnvEx)).result
        = .ok (some ⟨.num 10, .num 40⟩)
    ∧ (get_param_limits ([] : Cache) (some "tempCO") (some limitsEnvEx)).fetches = 1
    ∧ (get_param_limits
        (get_param_limits ([] : Cache) (some "tempCO") (some limitsEnvEx)).cache
        (some "fanPower") none).fetches = 0 := by
  have h := getParamLimits_lazy_fetch ([] : Cache) limitsEnvEx limitsTableEx
      (.obj [("min", .num 10), ("max", .num 40)]) (.num 10) (.num 40)
      (some "tempCO") (some "fanPower") "tempCO" "absent" none rfl rfl
  exact ⟨h.2.2.1 rfl rfl rfl, h.1, h.2.2.2.2.2⟩

/-- C10: a `get_param_limits` call with a null/unmapped key on a cold
cache still performs the bulk fetch and stores the table before
returning `None` — unlike `set_param`, which fails fast with no HTTP
call on a null/unmapped key. -/
theorem getParamLimits_unmapped_still_fetches (cache : Cache)
    (env table value : JVal) (wresp : Option JVal)
    (hcold : cacheExists cache API_EDITABLE_PARAMS_LIMITS_DATA = false)
    (henv : env.lookup API_EDITABLE_PARAMS_LIMITS_DATA = some table) :
    (get_param_limits cache none (some env)).fetches = 1
    ∧ cacheGet (get_param_limits cache none (some env)).cache
        API_EDITABLE_PARAMS_LIMITS_DATA = some table
    ∧ (get_param_limits cache none (some env)).result = .ok none
    ∧ (set_param cache none value wresp).httpCalled = false
    ∧ (set_param cache none value wresp).ok = false := by
  refine ⟨?_, ?_, ?_, rfl, rfl⟩
  · rw [getParamLimits_cold_eq cache env table none hcold henv,
      getParamLimitsRest_fetches]
  · rw [getParamLimits_cold_eq cache env table none hcold henv,
      getParamLimitsRest_cache, cacheGet_set_self]
  · rw [getParamLimits_cold_eq cache env table none hcold henv]
    unfold get_param_limits.getParamLimitsRest
    simp [cacheGet_set_self]

/-- Witness for C10 at an empty cold cache and the one-entry table. -/
theorem getParamLimits_unmapped_still_fetches_witness :
    (get_param_limits ([] : Cache) none (some limitsEnvEx)).fetches = 1
    ∧ (get_param_limits ([] : Cache) none (some limitsEnvEx)).result = .ok none
    ∧ (set_param ([] : Cache) none (.num 7) (some limitsEnvEx)).httpCalled
        = false := by
  have h := getParamLimits_unmapped_still_fetches ([] : Cache) limitsEnvEx
      limitsTableEx (.num 7) (some limitsEnvEx) rfl rfl
  exact ⟨h.1, h.2.2.1, h.2.2.2.1⟩

/-- C6 counterexample: the facade's `fetch_sys_params` does not unwrap
any key and does not signal a data error on a missing envelope — it
returns the raw client result, `None` included. -/
theorem fetchSysParams_counterexample :
    api_fetch_sys_params none = Except.ok none
    ∧ api_fetch_sys_params (some (JVal.obj [("k", JVal.null)]))
        = Except.ok (some (JVal.obj [("k", JVal.null)])) :=
  ⟨rfl, rfl⟩

/-- C6 amended: `fetch_reg_params` and `fetch_reg_params_data` each
unwrap their named envelope key and see a data error when the envelope
is missing or the key absent (`fetch_reg_params` propagating it,
`fetch_reg_params_data` converting it to an empty mapping), while
`fetch_sys_params` returns the raw envelope unchanged, without
unwrapping and without signaling a data error. -/
theorem passthrough_reads_spec (d v : JVal) (resp : Option JVal) :
    fetch_reg_params none
      = Except.error ("Data fetched by API for reg: "
          ++ API_REG_PARAMS_URI ++ " is None")
    ∧ (d.lookup API_REG_PARAMS_PARAM_DATA = some v →
        fetch_reg_params (some d) = .ok v)
    ∧ (d.lookup API_REG_PARAMS_PARAM_DATA = none →
        fetch_reg_params (some d)
          = .error ("Data for key: " ++ API_REG_PARAMS_PARAM_DATA
              ++ " does not exist"))
    ∧ fetch_reg_params_data none = .obj []
    ∧ (d.lookup API_REG_PARAMS_DATA_PARAM_DATA = some v →
        fetch_reg_params_data (some d) = v)
    ∧ (d.lookup API_REG_PARAMS_DATA_PARAM_DATA = none →
        fetch_reg_params_data (some d) = .obj [])
    ∧ api_fetch_sys_params resp = Except.ok resp := by
  refine ⟨rfl, ?_, ?_, rfl, ?_, ?_, rfl⟩ <;>
    (intro h
     simp [fetch_reg_params, fetch_reg_names, fetch_reg_params_data,
       fetch_reg_key, h])

/-- Witness for C6's amended theorem at concrete envelopes. -/
theorem passthrough_reads_witness :
    fetch_reg_params (some (JVal.obj [(API_REG_PARAMS_PARAM_DATA, JVal.num 1)]))
      = Except.ok (JVal.num 1)
    ∧ fetch_reg_params_data (some (JVal.obj [])) = JVal.obj [] :=
  ⟨(passthrough_reads_spec (JVal.obj [(API_REG_PARAMS_PARAM_DATA, JVal.num 1)])
      (JVal.num 1) none).2.1 rfl,
   (passthrough_reads_spec (JVal.obj []) JVal.null none).2.2.2.2.2.1 rfl⟩

/-- C7 counterexample: a missing envelope during the bulk registry read
`fetch_reg_params` raises a `DataError` out of the facade instead of
yielding an empty mapping. -/
theorem fetchRegParams_raises_counterexample :
    fetch_reg_params none
      = Except.error "Data fetched by API for reg: regParams is None"
    ∧ fetch_reg_params none ≠ Except.ok (JVal.obj []) := by
  refine ⟨rfl, ?_⟩
  intro h
  rw [show fetch_reg_params none
      = Except.error "Data fetched by API for reg: regParams is None" from rfl] at h
  exact Except.noConfusion h

/-- C7 amended: failures in `set_param`, `init` and
`fetch_reg_params_data` resolve to `false`, an unchanged state, or an
empty mapping, but a missing-envelope/missing-key data error in
`fetch_reg_params` — and in the lazy limits fetch inside
`get_param_limits` — propagates to the caller as a raised `DataError`
(leaving the cache unchanged) rather than yielding an empty mapping. -/
theorem failure_semantics_spec (cache : Cache) (st : ApiState)
    (param : Option String) (value : JVal) (e : String) (resp : Option JVal) :
    (set_param cache param value none).ok = false
    ∧ (set_param cache param value none).cache = cache
    ∧ init st none = st
    ∧ (fetch_reg_key API_REG_PARAMS_DATA_URI resp
          (some API_REG_PARAMS_DATA_PARAM_DATA) = .error e →
        fetch_reg_params_data resp = .obj [])
    ∧ fetch_reg_params none
        = Except.error ("Data fetched by API for reg: "
            ++ API_REG_PARAMS_URI ++ " is None")
    ∧ (cacheExists cache API_EDITABLE_PARAMS_LIMITS_DATA = false →
        (get_param_limits cache param none).result
            = .error ("Data fetched by API for reg: "
                ++ API_EDITABLE_PARAMS_LIMITS_URI ++ " is None")
          ∧ (get_param_limits cache param none).cache = cache) := by
  refine ⟨?_, ?_, rfl, ?_, rfl, ?_⟩
  · cases param <;> rfl
  · cases param <;> rfl
  · intro h
    simp [fetch_reg_params_data, h]
  · intro hcold
    constructor <;> simp [get_param_limits, hcold, fetch_reg_key]

/-- Witness for C7's amended theorem at concrete failing fetches. -/
theorem failure_semantics_witness :
    fetch_reg_params_data none = JVal.obj []
    ∧ (get_param_limits ([] : Cache) none none).result
        = Except.error
            "Data fetched by API for reg: rmCurrentDataParamsEdits is None" := by
  have h := failure_semantics_spec [] defaultApiState none JVal.null
      "Data fetched by API for reg: regParamsData is None" none
  exact ⟨h.2.2.2.1 rfl, (h.2.2.2.2.2 rfl).1⟩

/-- C9 counterexample: the host `"a/http://b"` does not start with a
scheme, yet the constructor stores it unchanged (because the source
tests substring containment, not a prefix), not `"http://" ++ host` as
the claim requires. -/
theorem hostNormalize_counterexample :
    schemePrefixed "a/http://b" = false
    ∧ hostNormalize "a/http://b" = "a/http://b"
    ∧ "a/http://b" ≠ "http://" ++ "a/http://b" := by
  refine ⟨rfl, rfl, ?_⟩
  decide

/-- C9 amended: the stored host is the input prefixed with `"http://"`
exactly when neither `"http://"` nor `"https://"` occurs anywhere in the
input as a substring, and is the input unchanged otherwise; in
particular a host that does start with a scheme is stored unchanged. -/
theorem hostNormalize_spec (host : String) :
    (schemePrefixed host = true → hostNormalize host = host)
    ∧ hostNormalize host
        = (if "http://".toList <:+: host.toList
              ∨ "https://".toList <:+: host.toList
           then host else "http://" ++ host) := by
  have hA := containsSub_eq_decide host "http://"
  have hB := containsSub_eq_decide host "https://"
  have hmain : hostNormalize host
      = (if "http://".toList <:+: host.toList
            ∨ "https://".toList <:+: host.toList
         then host else "http://" ++ host) := by
    by_cases h : "http://".toList <:+: host.toList
        ∨ "https://".toList <:+: host.toList
    · rw [if_pos h]
      simp only [hostNormalize, proto, List.all_cons, List.all_nil, Bool.and_true]
      rcases h with h | h
      · rw [hA, decide_eq_true h]
        simp
      · rw [hB, decide_eq_true h]
        simp
    · rw [if_neg h]
      push_neg at h
      obtain ⟨h1, h2⟩ := h
      simp only [hostNormalize, proto, List.all_cons, List.all_nil, Bool.and_true]
      rw [hA, hB, decide_eq_false h1, decide_eq_false h2]
      rfl
  refine ⟨?_, hmain⟩
  intro h
  have h' : "http://".toList.isPrefixOf host.toList = true
      ∨ "https://".toList.isPrefixOf host.toList = true := by
    simpa [schemePrefixed] using h
  rw [hmain, if_pos ?_]
  rcases h' with h' | h'
  · exact Or.inl (List.isPrefixOf_iff_prefix.mp h').isInfix
  · exact Or.inr (List.isPrefixOf_iff_prefix.mp h').isInfix

/-- Witness for C9's amended theorem at a scheme-prefixed host. -/
theorem hostNormalize_spec_witness :
    hostNormalize "http://device.local" = "http://device.local" :=
  (hostNormalize_spec "http://device.local").1 rfl

end Econet
